import Mathlib

/-!
Verification development for the tg-bot-analyzer repository.

Shallow embedding of the message cache (src/message_cache.py), the
authorized-user list operations (src/main.py), the analyzer error paths
(src/ai_analyzer.py), the webhook HTTP handler (src/api/webhook.py), and
the fixed-format timestamp serialization, together with theorems about the
claims of the specification.
-/

namespace TgBot

/-- One captured chat message: the dict built in `MessageCache.add_message`
(src/message_cache.py lines 69-75).  Timestamps are modelled at second
precision as natural numbers, matching the second-granular storage format
`YYYY-MM-DD HH:MM:SS` used by the durable store. -/
structure Message where
  chat_id : Int
  user_id : Int
  username : String
  text : String
  timestamp : Nat
deriving Repr, DecidableEq

/-- Lookup in the `chats` dictionary (`chat_id -> deque`), modelled as an
insertion-ordered association list. -/
def lookupChat : List (Int × List Message) → Int → Option (List Message)
  | [], _ => none
  | (c0, ws) :: rest, c => if c0 = c then some ws else lookupChat rest c

/-- `self.chats[chat_id]` read with the defaultdict default of an empty deque. -/
def getChat (chats : List (Int × List Message)) (c : Int) : List Message :=
  (lookupChat chats c).getD []

/-- Store a chat's working set, creating the entry at the end (Python dicts
preserve insertion order). -/
def setChat : List (Int × List Message) → Int → List Message → List (Int × List Message)
  | [], c, ws => [(c, ws)]
  | (c0, ws0) :: rest, c, ws =>
    if c0 = c then (c0, ws) :: rest else (c0, ws0) :: setChat rest c ws

/-- Python `deque(maxlen=cap).append(m)`: the element is appended on the right
and the leftmost element is discarded once the bound is exceeded. -/
def dequeAppend (cap : Nat) (xs : List Message) (m : Message) : List Message :=
  let ys := xs ++ [m]
  ys.drop (ys.length - cap)

/-- Python slice `xs[-cap:]`.  Note the Python edge case: for `cap = 0` the
slice `[-0:]` is `[0:]` and returns the whole list. -/
def pySliceLast (cap : Nat) (xs : List Message) : List Message :=
  if cap = 0 then xs else xs.drop (xs.length - cap)

/-- The last `k` elements of a list (the `k` most recently appended ones). -/
def lastN (k : Nat) (xs : List Message) : List Message :=
  xs.drop (xs.length - k)

/-- State of `MessageCache` (src/message_cache.py): the bounded per-chat
in-memory working sets and the durable append-only row log.  The SQLite
connection is modelled by the row list `db` in insertion order. -/
structure MessageCache where
  max_size : Nat
  memory_cache_size : Nat
  chats : List (Int × List Message)
  db : List Message
deriving Repr, DecidableEq

/-- A freshly constructed `MessageCache(max_size, memory_cache_size)` with an
empty chats dictionary and an empty durable table. -/
def MessageCache.empty (max_size memory_cache_size : Nat) : MessageCache :=
  ⟨max_size, memory_cache_size, [], []⟩

/-- `MessageCache.clear_old_messages_from_memory(chat_id)` for one chat
(src/message_cache.py lines 536-542): keep only the most recent
`memory_cache_size` messages (`list(...)[-memory_cache_size:]`). -/
def MessageCache.clearOldOne (mc : MessageCache) (c : Int) : MessageCache :=
  match lookupChat mc.chats c with
  | none => mc
  | some ws => { mc with chats := setChat mc.chats c (pySliceLast mc.memory_cache_size ws) }

/-- `MessageCache.clear_old_messages_from_memory(chat_id=None)` over all chats
(src/message_cache.py lines 543-549). -/
def MessageCache.clearOldAll (mc : MessageCache) : MessageCache :=
  { mc with chats := mc.chats.map (fun p => (p.1, pySliceLast mc.memory_cache_size p.2)) }

/-- The trim-trigger condition tested by `add_message`
(src/message_cache.py line 93): `len(self.chats[chat_id]) % 20 == 0`,
evaluated after the append. -/
def MessageCache.trimTriggered (mc : MessageCache) (chat_id : Int) (m : Message) : Bool :=
  (dequeAppend mc.memory_cache_size (getChat mc.chats chat_id) m).length % 20 == 0

/-- `MessageCache.add_message` (src/message_cache.py lines 58-96): write-through
append to the bounded in-memory deque, insert of one durable row (`dbOk`
models whether the guarded SQLite insert succeeds; on failure the error is
logged and swallowed), then the every-20th defensive trim pass. -/
def MessageCache.add_message (mc : MessageCache) (dbOk : Bool)
    (chat_id user_id : Int) (username text : String) (timestamp : Nat) : MessageCache :=
  let m : Message := ⟨chat_id, user_id, username, text, timestamp⟩
  let ws1 := dequeAppend mc.memory_cache_size (getChat mc.chats chat_id) m
  let mc1 : MessageCache :=
    { mc with
      chats := setChat mc.chats chat_id ws1,
      db := if dbOk then mc.db ++ [m] else mc.db }
  if mc.trimTriggered chat_id m then mc1.clearOldOne chat_id else mc1

/-- `add_message` with the trim pass omitted; used to state that the trim pass
never changes the state (the deque bound already enforces the cap). -/
def MessageCache.add_message_untrimmed (mc : MessageCache) (dbOk : Bool)
    (chat_id user_id : Int) (username text : String) (timestamp : Nat) : MessageCache :=
  let m : Message := ⟨chat_id, user_id, username, text, timestamp⟩
  let ws1 := dequeAppend mc.memory_cache_size (getChat mc.chats chat_id) m
  { mc with
    chats := setChat mc.chats chat_id ws1,
    db := if dbOk then mc.db ++ [m] else mc.db }

/-- Fold a list of messages through `add_message` with the durable insert
succeeding each time (normal operation). -/
def MessageCache.addAll (mc : MessageCache) (msgs : List Message) : MessageCache :=
  msgs.foldl
    (fun s m => s.add_message true m.chat_id m.user_id m.username m.text m.timestamp) mc

/-- Modelled from the spec: the literal SQL text of the get-last-N query lives
in `Config.SQL_QUERIES` in config.py, which is not part of src/.  Per the
spec the query selects the N most-recently-timestamped rows for the chat
(`ORDER BY timestamp DESC LIMIT n`); the sort is modelled as a stable merge
sort by descending timestamp over the chat's rows. -/
def sqlSelectLastN (db : List Message) (c : Int) (n : Nat) : List Message :=
  ((db.filter (fun m => m.chat_id == c)).mergeSort
    (fun a b => decide (b.timestamp ≤ a.timestamp))).take n

/-- `MessageCache.get_last_n_messages` (src/message_cache.py lines 98-128):
durable-first (`dbOk = true`), rows re-ordered oldest-first; on a durable
read failure (`dbOk = false`) fall back to the in-memory working set,
returning `messages[-n:] if len(messages) >= n else messages`. -/
def MessageCache.get_last_n_messages (mc : MessageCache) (dbOk : Bool)
    (c : Int) (n : Nat) : List Message :=
  if dbOk then
    (sqlSelectLastN mc.db c n).reverse
  else
    match lookupChat mc.chats c with
    | none => []
    | some ws => if n ≤ ws.length then pySliceLast n ws else ws

/-- One value stored in the interaction dictionary built by
`get_user_interactions`: under the key `"self"` the raw message dict is
appended; under a partner name an interaction record
`(type = interaction, user_message, partner_message, timestamp)` is appended
(src/message_cache.py lines 296-316). -/
inductive IEntry where
  | selfMsg (m : Message)
  | inter (user_message : Option Message) (partner_message : Message) (timestamp : Nat)
deriving Repr, DecidableEq

/-- The inner context-window loop of `get_user_interactions`
(src/message_cache.py lines 301-316): for the anchor at index `i`, scan
indices `j` in `[max(0, i-3), min(len, i+4))` and, for every context message
authored by someone else, emit an interaction record under that partner's
display name; `user_message` is the anchor exactly when `j > i`. -/
def interWindow (imsgs : List (Nat × Message)) (user : Int) (i : Nat) (m : Message) :
    List (String × IEntry) :=
  (imsgs.filter (fun p => decide (i - 3 ≤ p.1) && decide (p.1 < i + 4))).filterMap
    (fun p =>
      if p.2.user_id ≠ user then
        some (p.2.username,
          IEntry.inter (if i < p.1 then some m else none) p.2 p.2.timestamp)
      else none)

/-- The full emission sequence of `get_user_interactions`'s main loop
(src/message_cache.py lines 296-316): for every message authored by the
target user, first the `"self"` append, then the context-window appends. -/
def interEmits (msgs : List Message) (user : Int) : List (String × IEntry) :=
  msgs.enum.flatMap (fun p =>
    if p.2.user_id == user then
      ("self", IEntry.selfMsg p.2) :: interWindow msgs.enum user p.1 p.2
    else [])

/-- Lookup in the resulting interaction dictionary. -/
def dictGet (d : List (String × List IEntry)) (k : String) : Option (List IEntry) :=
  match d with
  | [] => none
  | (k0, v) :: rest => if k0 = k then some v else dictGet rest k

/-- The list stored under a key, with the defaultdict default `[]`. -/
def entriesFor (d : List (String × List IEntry)) (k : String) : List IEntry :=
  (dictGet d k).getD []

/-- `interactions[k].append(v)` on the insertion-ordered defaultdict. -/
def dictAppend (d : List (String × List IEntry)) (k : String) (v : IEntry) :
    List (String × List IEntry) :=
  match d with
  | [] => [(k, [v])]
  | (k0, l) :: rest =>
    if k0 = k then (k0, l ++ [v]) :: rest else (k0, l) :: dictAppend rest k v

/-- Replay of the appends into the defaultdict, in emission order. -/
def groupPairs (ps : List (String × IEntry)) : List (String × List IEntry) :=
  ps.foldl (fun d p => dictAppend d p.1 p.2) []

/-- The trailing truncation of `get_user_interactions`
(src/message_cache.py lines 319-322): guarded by Python's truthiness test
`if limit:` (so `limit = 0` behaves like no limit), each partner's list is
cut to its most recent `limit` entries. -/
def applyLimit (limit : Option Nat) (d : List (String × List IEntry)) :
    List (String × List IEntry) :=
  match limit with
  | none => d
  | some l =>
    if l = 0 then d
    else d.map (fun p => (p.1, if l < p.2.length then p.2.drop (p.2.length - l) else p.2))

/-- The interaction map built from one chat's ordered working set. -/
def userInteractions (msgs : List Message) (user : Int) (limit : Option Nat) :
    List (String × List IEntry) :=
  applyLimit limit (groupPairs (interEmits msgs user))

/-- `MessageCache.get_user_interactions` (src/message_cache.py lines 276-325):
purely in-memory; a chat with no working-set entry yields the empty
dictionary without consulting durable storage. -/
def MessageCache.get_user_interactions (mc : MessageCache) (c : Int) (user : Int)
    (limit : Option Nat) : List (String × List IEntry) :=
  match lookupChat mc.chats c with
  | none => []
  | some ws => userInteractions ws user limit

/-- `is_main_admin` (src/main.py lines 45-47):
`len(AUTHORIZED_USERS) > 0 and user_id == AUTHORIZED_USERS[0]`. -/
def is_main_admin (users : List Int) (uid : Int) : Bool :=
  match users with
  | [] => false
  | a :: _ => uid == a

/-- `add_authorized_user` (src/main.py lines 50-55): append if absent; the
Bool is the reported success. -/
def add_authorized_user (users : List Int) (uid : Int) : List Int × Bool :=
  if uid ∈ users then (users, false) else (users ++ [uid], true)

/-- `remove_authorized_user` (src/main.py lines 58-63): Python `list.remove`
removes the first occurrence; refused for the main admin. -/
def remove_authorized_user (users : List Int) (uid : Int) : List Int × Bool :=
  if uid ∈ users ∧ ¬ is_main_admin users uid = true then (users.erase uid, true)
  else (users, false)

/-- One administrative mutation of the authorized-user list. -/
inductive AuthOp where
  | add (uid : Int)
  | remove (uid : Int)
deriving Repr, DecidableEq

/-- Apply one list mutation, keeping only the resulting list. -/
def applyAuthOp (users : List Int) : AuthOp → List Int
  | AuthOp.add u => (add_authorized_user users u).1
  | AuthOp.remove u => (remove_authorized_user users u).1

/-- Apply a sequence of add/remove operations. -/
def applyAuthOps (users : List Int) (ops : List AuthOp) : List Int :=
  ops.foldl applyAuthOp users

/-- A Python exception, as far as the modelled handlers distinguish them:
`json.JSONDecodeError` versus everything else. -/
inductive PyExc where
  | jsonDecodeError
  | other (msg : String)
deriving Repr, DecidableEq

/-- The fixed empty-input string of `analyze_messages`
(src/ai_analyzer.py line 139). -/
def noMessagesStr : String := "❌ Нет сообщений для анализа."

/-- The fixed empty-input string of `analyze_user_communication`
(src/ai_analyzer.py line 178). -/
def noUserMessagesStr : String := "❌ Нет сообщений пользователя для анализа."

/-- The empty-response string (src/ai_analyzer.py lines 156 and 194). -/
def emptyResponseStr : String := "❌ Получен пустой ответ от AI."

/-- The fixed malformed-JSON diagnostic returned by both structured analysis
operations (src/ai_analyzer.py lines 163 and 202). -/
def jsonErrorStr : String := "❌ Ошибка обработки ответа AI. Попробуйте позже."

/-- Prefix of the generic catch-all diagnostic (src/ai_analyzer.py lines 166
and 205). -/
def genericErrorPrefix : String := "❌ Ошибка при анализе: "

/-- The parsed group-analysis JSON payload, as read by
`_format_analysis_report` via `dict.get` with defaults
(src/ai_analyzer.py lines 230-249). -/
structure GroupAnalysis where
  communication_tone : Option String
  effectiveness_score : Option Nat
  positive_patterns : List String
  improvement_areas : List String
  recommendations : List String
  team_atmosphere : Option String
deriving Repr, DecidableEq

/-- `_format_analysis_report` (src/ai_analyzer.py lines 230-249); `now` is the
formatted `datetime.now()` trailer. -/
def formatAnalysisReport (a : GroupAnalysis) (message_count : Nat) (now : String) : String :=
  let score := match a.effectiveness_score with
    | some n => toString n
    | none => "N/A"
  let head :=
    "📊 **Анализ " ++ toString message_count ++ " сообщений**\n" ++
    "🎯 **Общий тон коммуникации:**\n" ++
    a.communication_tone.getD "Не определен" ++ "\n" ++
    "📈 **Оценка эффективности:** " ++ score ++ "/10\n" ++
    "✅ **Позитивные паттерны:**"
  let withPos := a.positive_patterns.foldl (fun r p => r ++ "\n-  " ++ p) head
  let withImp := (a.improvement_areas.foldl (fun r p => r ++ "\n-  " ++ p)
    (withPos ++ "\n\n🔧 **Области для улучшения:**"))
  let withRec := (a.recommendations.foldl (fun r p => r ++ "\n-  " ++ p)
    (withImp ++ "\n\n💡 **Рекомендации:**"))
  withRec ++ "\n\n🌟 **Атмосфера в команде:**\n" ++
    a.team_atmosphere.getD "Не определена" ++
    "\n\n---\n📅 Анализ выполнен: " ++ now

/-- One `motivating_feedback` item of the personal payload
(src/ai_analyzer.py lines 379-393). -/
structure MotivatingItem where
  quote : Option String
  context : Option String
  positive_result : Option String
deriving Repr, DecidableEq

/-- One `development_feedback` item of the personal payload
(src/ai_analyzer.py lines 395-416). -/
structure DevelopmentItem where
  quote : Option String
  action : Option String
  potential_consequences : Option String
  reflection_question : Option String
  improvement_suggestion : Option String
deriving Repr, DecidableEq

/-- The parsed personal-analysis JSON payload, as read by
`_format_personal_analysis_report` (src/ai_analyzer.py lines 362-439). -/
structure PersonalAnalysis where
  overall_summary : Option String
  communication_effectiveness : Option Nat
  strengths : List String
  motivating_feedback : List MotivatingItem
  development_feedback : List DevelopmentItem
  interaction_patterns : List (String × String)
  recommendations : List String
  agreements : List String
deriving Repr, DecidableEq

/-- Rendering of one motivating-feedback line (src/ai_analyzer.py lines 382-393). -/
def renderMotivating (item : MotivatingItem) : String :=
  let l0 := "-  "
  let l1 := match item.quote with
    | some q => l0 ++ "«" ++ q ++ "»"
    | none => l0
  let l2 := match item.context with
    | some c => l1 ++ " — контекст: " ++ c
    | none => l1
  match item.positive_result with
  | some r => l2 ++ " — результат: " ++ r
  | none => l2

/-- Rendering of one development-feedback block (src/ai_analyzer.py lines 398-416). -/
def renderDevelopment (item : DevelopmentItem) : String :=
  let s0 :=
    if item.quote.isSome || item.action.isSome then
      "\n-  Ситуация:" ++
      (match item.quote with
        | some q => " «" ++ q ++ "»"
        | none => "") ++
      (match item.action with
        | some a => " | Действие: " ++ a
        | none => "")
    else ""
  let s1 := match item.potential_consequences with
    | some c => s0 ++ "\n  Последствия/риск: " ++ c
    | none => s0
  let s2 := match item.reflection_question with
    | some q => s1 ++ "\n  Вопрос для рефлексии: " ++ q
    | none => s1
  match item.improvement_suggestion with
  | some s => s2 ++ "\n  Альтернатива: " ++ s
  | none => s2

/-- `_format_personal_analysis_report` (src/ai_analyzer.py lines 362-439). -/
def formatPersonalAnalysisReport (a : PersonalAnalysis) (username : String)
    (message_count : Nat) (now : String) : String :=
  let score := match a.communication_effectiveness with
    | some n => toString n
    | none => "N/A"
  let head :=
    "👤 **Персональный анализ для @" ++ username ++ "**\n\n" ++
    "📊 Проанализировано " ++ toString message_count ++ " сообщений\n\n" ++
    "🧭 **Общий вывод:**\n" ++
    a.overall_summary.getD "Не определен" ++ "\n\n" ++
    "📈 **Эффективность коммуникации:** " ++ score ++ "/10\n"
  let r1 :=
    if a.strengths.isEmpty then head
    else a.strengths.foldl (fun r s => r ++ "\n-  " ++ s)
      (head ++ "\n✅ **Сильные стороны:**")
  let r2 :=
    if a.motivating_feedback.isEmpty then r1
    else a.motivating_feedback.foldl (fun r item => r ++ "\n" ++ renderMotivating item)
      (r1 ++ "\n\n🌟 **Мотивирующая ОС (что стоит закрепить):**")
  let r3 :=
    if a.development_feedback.isEmpty then r2
    else a.development_feedback.foldl (fun r item => r ++ renderDevelopment item)
      (r2 ++ "\n\n🛠️ **Зоны для развития (корректирующая/развивающая ОС):**")
  let r4 :=
    if a.interaction_patterns.isEmpty then r3
    else a.interaction_patterns.foldl
      (fun r p => r ++ "\n-  С " ++ p.1 ++ ": " ++ p.2)
      (r3 ++ "\n\n🤝 **Особенности взаимодействия:**")
  let r5 :=
    if a.recommendations.isEmpty then r4
    else a.recommendations.foldl (fun r s => r ++ "\n-  " ++ s)
      (r4 ++ "\n\n💡 **Практические рекомендации:**")
  let r6 :=
    if a.agreements.isEmpty then r5
    else a.agreements.foldl (fun r s => r ++ "\n-  " ++ s)
      (r5 ++ "\n\n📝 **Договоренности/следующие шаги:**")
  r6 ++ "\n\n---\n📅 Персональный анализ выполнен: " ++ now ++
    "\n🔒 Этот отчет конфиденциален и отправлен только вам."

/-- The try-block of `analyze_messages` (src/ai_analyzer.py lines 141-159),
after the LLM call: `response_content` is the text `_call_gemini` returned,
and `parsed` models the stdlib call `json.loads(response_content)`
(`none` = the call raises `json.JSONDecodeError`). -/
def analyze_messages_try (messages : List Message) (response_content : String)
    (parsed : Option GroupAnalysis) (now : String) : Except PyExc String :=
  if response_content = "" then Except.ok emptyResponseStr
  else
    match parsed with
    | none => Except.error PyExc.jsonDecodeError
    | some a => Except.ok (formatAnalysisReport a messages.length now)

/-- `analyze_messages` (src/ai_analyzer.py lines 134-166): empty input
short-circuits; `json.JSONDecodeError` is caught and converted to the fixed
diagnostic; any other exception is caught and converted to the generic
diagnostic.  A result `Except.error` would model an exception escaping to
the caller. -/
def analyze_messages (messages : List Message) (response_content : String)
    (parsed : Option GroupAnalysis) (now : String) : Except PyExc String :=
  if messages.isEmpty then Except.ok noMessagesStr
  else
    match analyze_messages_try messages response_content parsed now with
    | Except.ok s => Except.ok s
    | Except.error PyExc.jsonDecodeError => Except.ok jsonErrorStr
    | Except.error (PyExc.other m) => Except.ok (genericErrorPrefix ++ m)

/-- The try-block of `analyze_user_communication`
(src/ai_analyzer.py lines 180-198). -/
def analyze_user_communication_try (user_messages : List Message) (username : String)
    (response_content : String) (parsed : Option PersonalAnalysis) (now : String) :
    Except PyExc String :=
  if response_content = "" then Except.ok emptyResponseStr
  else
    match parsed with
    | none => Except.error PyExc.jsonDecodeError
    | some a => Except.ok (formatPersonalAnalysisReport a username user_messages.length now)

/-- `analyze_user_communication` (src/ai_analyzer.py lines 168-205), with the
same exception-to-string conversion as `analyze_messages`. -/
def analyze_user_communication (user_messages : List Message) (username : String)
    (response_content : String) (parsed : Option PersonalAnalysis) (now : String) :
    Except PyExc String :=
  if user_messages.isEmpty then Except.ok noUserMessagesStr
  else
    match analyze_user_communication_try user_messages username response_content parsed now with
    | Except.ok s => Except.ok s
    | Except.error PyExc.jsonDecodeError => Except.ok jsonErrorStr
    | Except.error (PyExc.other m) => Except.ok (genericErrorPrefix ++ m)

/-- The decoded JSON platform-update object carried by a webhook POST body
(one Telegram update); its internal structure is irrelevant to the HTTP
contract. -/
structure UpdateData where
  raw : String
deriving Repr, DecidableEq

/-- `handler.do_GET` (src/api/webhook.py lines 55-60): status and plain-text
body. -/
def webhook_do_GET : Nat × String :=
  (200, "Telegram Bot Webhook is active ✅")

/-- `handler.do_POST` (src/api/webhook.py lines 29-53).  `content_length` is
the request's Content-Length header (0 when absent); `parsed` models the
stdlib call `json.loads(body)` (`none` = `json.JSONDecodeError`); `dispatch`
models `asyncio.run(handle_update(update_data))`, whose failure is an
exception.  The `except json.JSONDecodeError` clause maps that exception
type to 400 and the catch-all clause maps every other exception to 500. -/
def webhook_do_POST (content_length : Nat) (parsed : Option UpdateData)
    (dispatch : UpdateData → Except PyExc Unit) : Nat × String :=
  if content_length = 0 then (400, "Empty body")
  else
    match parsed with
    | none => (400, "Invalid JSON")
    | some u =>
      match dispatch u with
      | Except.ok _ => (200, "OK")
      | Except.error PyExc.jsonDecodeError => (400, "Invalid JSON")
      | Except.error (PyExc.other m) => (500, "Internal error: " ++ m)

/-- A Python `datetime` value (stdlib): the fields `MessageCache` serializes.
Python requires `1 <= year <= 9999`. -/
structure PyDateTime where
  year : Nat
  month : Nat
  day : Nat
  hour : Nat
  minute : Nat
  second : Nat
  microsecond : Nat
deriving Repr, DecidableEq

/-- Gregorian leap-year rule used by the stdlib calendar. -/
def isLeapYear (y : Nat) : Bool :=
  (y % 4 == 0 && y % 100 != 0) || y % 400 == 0

/-- Days in a month of the proleptic Gregorian calendar. -/
def daysInMonth (y : Nat) : Nat → Nat
  | 1 => 31
  | 2 => if isLeapYear y then 29 else 28
  | 3 => 31
  | 4 => 30
  | 5 => 31
  | 6 => 30
  | 7 => 31
  | 8 => 31
  | 9 => 30
  | 10 => 31
  | 11 => 30
  | 12 => 31
  | _ => 0

/-- Validity of the field values, as enforced by the `datetime` constructor. -/
def PyDateTime.valid (d : PyDateTime) : Prop :=
  1 ≤ d.year ∧ d.year ≤ 9999 ∧ 1 ≤ d.month ∧ d.month ≤ 12 ∧
  1 ≤ d.day ∧ d.day ≤ daysInMonth d.year d.month ∧
  d.hour < 24 ∧ d.minute < 60 ∧ d.second < 60 ∧ d.microsecond < 1000000

instance (d : PyDateTime) : Decidable d.valid := by
  unfold PyDateTime.valid
  infer_instance

/-- The decimal digit character for `n % 10`. -/
def digitChar (n : Nat) : Char :=
  Char.ofNat (48 + n % 10)

/-- Numeric value of a digit character. -/
def digitVal (c : Char) : Nat :=
  c.toNat - 48

/-- Decimal-digit test on the character code. -/
def isDigitCh (c : Char) : Bool :=
  48 ≤ c.toNat && c.toNat ≤ 57

/-- Four-digit zero-padded field. -/
def pad4 (n : Nat) : List Char :=
  [digitChar (n / 1000), digitChar (n / 100), digitChar (n / 10), digitChar n]

/-- Two-digit zero-padded field. -/
def pad2 (n : Nat) : List Char :=
  [digitChar (n / 10), digitChar n]

/-- The `%Y` field as the POSIX strftime used by CPython renders it: the year
in decimal with no zero-padding (`datetime(900,1,2).strftime('%Y')` is
`"900"`), for the years `1..9999` that `datetime` admits. -/
def yearChars (y : Nat) : List Char :=
  if 1000 ≤ y then pad4 y
  else if 100 ≤ y then [digitChar (y / 100), digitChar (y / 10), digitChar y]
  else if 10 ≤ y then [digitChar (y / 10), digitChar y]
  else [digitChar y]

/-- `MessageCache._ts_to_str` (src/message_cache.py lines 512-514):
`ts.strftime(%Y-%m-%d %H:%M:%S)` — the stdlib strftime is modelled for this
one fixed format string: the year unpadded as the platform emits it, the
remaining fields zero-padded to two digits, microseconds dropped. -/
def ts_to_str (d : PyDateTime) : String :=
  String.mk (yearChars d.year ++ '-' :: pad2 d.month ++ '-' :: pad2 d.day ++
    ' ' :: pad2 d.hour ++ ':' :: pad2 d.minute ++ ':' :: pad2 d.second)

/-- Parse two digit characters. -/
def parse2 (a b : Char) : Option Nat :=
  if isDigitCh a && isDigitCh b then some (10 * digitVal a + digitVal b) else none

/-- Parse four digit characters. -/
def parse4 (a b c d : Char) : Option Nat :=
  if isDigitCh a && isDigitCh b && isDigitCh c && isDigitCh d then
    some (1000 * digitVal a + 100 * digitVal b + 10 * digitVal c + digitVal d)
  else none

/-- The stdlib call `datetime.strptime(s, %Y-%m-%d %H:%M:%S)` modelled for
this one fixed format on its zero-padded output shape: `none` models the
raised `ValueError` on any mismatch (wrong shape, non-digits, or field
values the `datetime` constructor rejects). -/
def str_to_ts_strptime (s : String) : Option PyDateTime :=
  match s.toList with
  | [y1, y2, y3, y4, sep1, m1, m2, sep2, d1, d2, sep3, h1, h2, sep4, n1, n2, sep5, s1, s2] =>
    if sep1 = '-' ∧ sep2 = '-' ∧ sep3 = ' ' ∧ sep4 = ':' ∧ sep5 = ':' then
      match parse4 y1 y2 y3 y4, parse2 m1 m2, parse2 d1 d2,
            parse2 h1 h2, parse2 n1 n2, parse2 s1 s2 with
      | some y, some mo, some da, some h, some mi, some se =>
        let d : PyDateTime := ⟨y, mo, da, h, mi, se, 0⟩
        if d.valid then some d else none
      | _, _, _, _, _, _ => none
    else none
  | _ => none

/-- The stdlib call `datetime.fromisoformat(s)` on the fixed
`YYYY-MM-DD HH:MM:SS` shape this module handles: every CPython version
requires a four-digit year there, so on these strings it accepts exactly
what the strptime model accepts (and in particular rejects the unpadded
sub-1000 years the strftime model emits). -/
def fromisoformatModel (s : String) : Option PyDateTime :=
  str_to_ts_strptime s

/-- `MessageCache._str_to_ts` (src/message_cache.py lines 516-527): strptime
with the fixed format, then a `datetime.fromisoformat` fallback (stdlib,
abstracted as the `iso` argument; `fromisoformatModel` instantiates it on
the fixed shape), then `datetime.now()` (the `now` argument) as last
resort — every failure is caught, so the function always returns a value. -/
def str_to_ts (iso : String → Option PyDateTime) (now : PyDateTime) (s : String) :
    PyDateTime :=
  match str_to_ts_strptime s with
  | some d => d
  | none =>
    match iso s with
    | some d => d
    | none => now

/-- One observable side effect of constructing the objects used by the webhook
entry point. -/
inductive InitEffect where
  | configureApiKey
  | networkListModels
  | createBotClient
  | createDispatcher
  | openLocalDatabase
deriving Repr, DecidableEq

/-- Which construction-time effects are network round-trips:
`genai.configure` records the key locally, `Bot(token=...)` and
`Dispatcher()` build client objects without I/O, `sqlite3.connect` touches
only the local filesystem, while `genai.list_models()` is an HTTP request to
the hosted LLM service. -/
def isNetworkRoundTrip : InitEffect → Bool
  | InitEffect.networkListModels => true
  | _ => false

/-- Effects of `CommunicationAnalyzer.__init__` (src/ai_analyzer.py lines
18-49), in order: `genai.configure(api_key=...)`, then the diagnostic
`genai.list_models()` probe (its failure is caught and printed, but the
network call is still made). -/
def communicationAnalyzerInitEffects : List InitEffect :=
  [InitEffect.configureApiKey, InitEffect.networkListModels]

/-- Effects of importing src/main.py at module level (lines 29-34):
`Bot(token=...)`, `Dispatcher()`, `MessageCache(...)` (sqlite3.connect),
then `CommunicationAnalyzer()`.  The webhook entry point triggers exactly
this on its first POST via `from main import handle_update`
(src/api/webhook.py line 42). -/
def mainModuleConstructionEffects : List InitEffect :=
  [InitEffect.createBotClient, InitEffect.createDispatcher, InitEffect.openLocalDatabase] ++
    communicationAnalyzerInitEffects

theorem lookupChat_setChat_self (chats : List (Int × List Message)) (c : Int)
    (ws : List Message) : lookupChat (setChat chats c ws) c = some ws := by
  induction chats with
  | nil => simp [setChat, lookupChat]
  | cons p rest ih =>
    obtain ⟨c0, ws0⟩ := p
    by_cases h : c0 = c
    · simp [setChat, lookupChat, h]
    · simp [setChat, lookupChat, h, ih]

theorem lookupChat_setChat_other (chats : List (Int × List Message)) (c c' : Int)
    (ws : List Message) (h : c' ≠ c) :
    lookupChat (setChat chats c ws) c' = lookupChat chats c' := by
  induction chats with
  | nil => simp [setChat, lookupChat, Ne.symm h]
  | cons p rest ih =>
    obtain ⟨c0, ws0⟩ := p
    by_cases hc : c0 = c
    · subst hc
      simp [setChat, lookupChat, Ne.symm h]
    · by_cases hc' : c0 = c'
      · simp [setChat, lookupChat, hc, hc', h]
      · simp [setChat, lookupChat, hc, hc', ih]

theorem setChat_setChat (chats : List (Int × List Message)) (c : Int)
    (ws ws' : List Message) : setChat (setChat chats c ws) c ws' = setChat chats c ws' := by
  induction chats with
  | nil => simp [setChat]
  | cons p rest ih =>
    by_cases h : p.1 = c
    · simp [setChat, h]
    · simp [setChat, h, ih]

theorem getChat_setChat_self (chats : List (Int × List Message)) (c : Int)
    (ws : List Message) : getChat (setChat chats c ws) c = ws := by
  simp [getChat, lookupChat_setChat_self]

theorem getChat_setChat_other (chats : List (Int × List Message)) (c c' : Int)
    (ws : List Message) (h : c' ≠ c) :
    getChat (setChat chats c ws) c' = getChat chats c' := by
  simp [getChat, lookupChat_setChat_other chats c c' ws h]

theorem dequeAppend_eq_lastN (cap : Nat) (xs : List Message) (m : Message) :
    dequeAppend cap xs m = lastN cap (xs ++ [m]) := rfl

theorem lastN_length (k : Nat) (xs : List Message) :
    (lastN k xs).length = min k xs.length := by
  simp [lastN]
  omega

theorem pySliceLast_of_le (cap : Nat) (xs : List Message) (h : xs.length ≤ cap) :
    pySliceLast cap xs = xs := by
  unfold pySliceLast
  split
  · rfl
  · have : xs.length - cap = 0 := by omega
    simp [this]

theorem lastN_lastN_append (cap : Nat) (A B : List Message) :
    lastN cap (lastN cap A ++ B) = lastN cap (A ++ B) := by
  unfold lastN
  rw [← List.drop_append_of_le_length (by omega : A.length - cap ≤ A.length)]
  rw [List.drop_drop]
  congr 1
  simp only [List.length_append, List.length_drop]
  omega

theorem dequeAppend_length_le (cap : Nat) (xs : List Message) (m : Message) :
    (dequeAppend cap xs m).length ≤ cap := by
  simp [dequeAppend]
  omega

/-- The every-20th trim pass inside `add_message` never changes the state: the
deque bound already enforces the memory cap, so the defensive compaction is
always a no-op. -/
theorem add_message_eq_untrimmed (mc : MessageCache) (dbOk : Bool)
    (chat_id user_id : Int) (username text : String) (timestamp : Nat) :
    mc.add_message dbOk chat_id user_id username text timestamp =
      mc.add_message_untrimmed dbOk chat_id user_id username text timestamp := by
  have hlen := dequeAppend_length_le mc.memory_cache_size (getChat mc.chats chat_id)
    ⟨chat_id, user_id, username, text, timestamp⟩
  simp only [MessageCache.add_message, MessageCache.add_message_untrimmed]
  by_cases htrig :
      mc.trimTriggered chat_id ⟨chat_id, user_id, username, text, timestamp⟩ = true
  · rw [if_pos htrig]
    simp only [MessageCache.clearOldOne, lookupChat_setChat_self]
    rw [pySliceLast_of_le _ _ hlen, setChat_setChat]
  · rw [if_neg htrig]

theorem add_message_getChat_self (mc : MessageCache) (dbOk : Bool)
    (chat_id user_id : Int) (username text : String) (timestamp : Nat) :
    getChat (mc.add_message dbOk chat_id user_id username text timestamp).chats chat_id =
      dequeAppend mc.memory_cache_size (getChat mc.chats chat_id)
        ⟨chat_id, user_id, username, text, timestamp⟩ := by
  rw [add_message_eq_untrimmed]
  unfold MessageCache.add_message_untrimmed
  simp [getChat_setChat_self]

theorem add_message_getChat_other (mc : MessageCache) (dbOk : Bool)
    (chat_id user_id : Int) (username text : String) (timestamp : Nat) (c' : Int)
    (h : c' ≠ chat_id) :
    getChat (mc.add_message dbOk chat_id user_id username text timestamp).chats c' =
      getChat mc.chats c' := by
  rw [add_message_eq_untrimmed]
  unfold MessageCache.add_message_untrimmed
  simp [getChat_setChat_other _ _ _ _ h]

theorem add_message_db (mc : MessageCache) (dbOk : Bool)
    (chat_id user_id : Int) (username text : String) (timestamp : Nat) :
    (mc.add_message dbOk chat_id user_id username text timestamp).db =
      if dbOk then mc.db ++ [⟨chat_id, user_id, username, text, timestamp⟩] else mc.db := by
  rw [add_message_eq_untrimmed]
  rfl

theorem add_message_cap (mc : MessageCache) (dbOk : Bool)
    (chat_id user_id : Int) (username text : String) (timestamp : Nat) :
    (mc.add_message dbOk chat_id user_id username text timestamp).memory_cache_size =
      mc.memory_cache_size := by
  rw [add_message_eq_untrimmed]
  rfl

theorem addAll_db (msgs : List Message) : ∀ (mc : MessageCache),
    (mc.addAll msgs).db = mc.db ++ msgs := by
  induction msgs with
  | nil => intro mc; simp [MessageCache.addAll]
  | cons m rest ih =>
    intro mc
    show ((mc.add_message true m.chat_id m.user_id m.username m.text m.timestamp).addAll
      rest).db = mc.db ++ m :: rest
    rw [ih, add_message_db]
    simp

theorem addAll_cap (msgs : List Message) : ∀ (mc : MessageCache),
    (mc.addAll msgs).memory_cache_size = mc.memory_cache_size := by
  induction msgs with
  | nil => intro mc; rfl
  | cons m rest ih =>
    intro mc
    show ((mc.add_message true m.chat_id m.user_id m.username m.text m.timestamp).addAll
      rest).memory_cache_size = mc.memory_cache_size
    rw [ih, add_message_cap]

theorem lastN_of_le (k : Nat) (xs : List Message) (h : xs.length ≤ k) :
    lastN k xs = xs := by
  unfold lastN
  have : xs.length - k = 0 := by omega
  simp [this]

theorem addAll_getChat (c : Int) (msgs : List Message) : ∀ (mc : MessageCache),
    (∀ x ∈ msgs, x.chat_id = c) →
    (getChat mc.chats c).length ≤ mc.memory_cache_size →
    getChat (mc.addAll msgs).chats c =
      lastN mc.memory_cache_size (getChat mc.chats c ++ msgs) := by
  induction msgs with
  | nil =>
    intro mc _ hlen
    show getChat mc.chats c = lastN mc.memory_cache_size (getChat mc.chats c ++ [])
    rw [List.append_nil, lastN_of_le _ _ hlen]
  | cons m rest ih =>
    intro mc hall hlen
    have hm : m.chat_id = c := hall m (List.mem_cons_self _ _)
    have hmsg : (⟨m.chat_id, m.user_id, m.username, m.text, m.timestamp⟩ : Message) = m := rfl
    have h1 : getChat (mc.add_message true m.chat_id m.user_id m.username m.text
        m.timestamp).chats c = lastN mc.memory_cache_size (getChat mc.chats c ++ [m]) := by
      rw [← hm, add_message_getChat_self, dequeAppend_eq_lastN, hmsg, hm]
    show getChat (((mc.add_message true m.chat_id m.user_id m.username m.text
      m.timestamp)).addAll rest).chats c = _
    rw [ih _ (fun x hx => hall x (List.mem_cons_of_mem _ hx))
      (by rw [add_message_cap, h1, lastN_length]; omega)]
    rw [add_message_cap, h1, lastN_lastN_append, List.append_assoc]
    rfl

theorem addAll_getChat_le (msgs : List Message) : ∀ (mc : MessageCache),
    (∀ ch, (getChat mc.chats ch).length ≤ mc.memory_cache_size) →
    ∀ ch, (getChat (mc.addAll msgs).chats ch).length ≤ mc.memory_cache_size := by
  induction msgs with
  | nil => intro mc h ch; exact h ch
  | cons m rest ih =>
    intro mc h ch
    show (getChat (((mc.add_message true m.chat_id m.user_id m.username m.text
      m.timestamp)).addAll rest).chats ch).length ≤ mc.memory_cache_size
    rw [← add_message_cap mc true m.chat_id m.user_id m.username m.text m.timestamp]
    apply ih
    intro ch'
    rw [add_message_cap]
    by_cases hc : ch' = m.chat_id
    · subst hc
      rw [add_message_getChat_self]
      simp [dequeAppend]
      omega
    · rw [add_message_getChat_other _ _ _ _ _ _ _ _ hc]
      exact h ch'

/-- Sorting a strictly ascending list by descending timestamp reverses it. -/
theorem mergeSort_desc_of_strictAsc (rows : List Message)
    (h : rows.Pairwise (fun a b => a.timestamp < b.timestamp)) :
    rows.mergeSort (fun a b => decide (b.timestamp ≤ a.timestamp)) = rows.reverse := by
  haveI : IsAntisymm Message (fun a b => b.timestamp < a.timestamp) :=
    ⟨fun a b h1 h2 => absurd h1 (Nat.lt_asymm h2)⟩
  apply List.eq_of_perm_of_sorted
    (r := fun a b : Message => b.timestamp < a.timestamp)
  · exact (List.mergeSort_perm rows _).trans rows.reverse_perm.symm
  · have hle : (rows.mergeSort (fun a b => decide (b.timestamp ≤ a.timestamp))).Pairwise
        (fun a b => decide (b.timestamp ≤ a.timestamp) = true) := by
      apply List.sorted_mergeSort
      · intro a b c h1 h2
        simp only [decide_eq_true_eq] at h1 h2 ⊢
        omega
      · intro a b
        rcases Nat.le_total b.timestamp a.timestamp with hab | hab <;> simp [hab]
    have hne : (rows.mergeSort (fun a b => decide (b.timestamp ≤ a.timestamp))).Pairwise
        (fun a b => a.timestamp ≠ b.timestamp) := by
      refine (h.imp (fun hlt => Nat.ne_of_lt hlt)).perm
        (List.mergeSort_perm rows _).symm ?_
      intro x y hxy
      exact hxy.symm
    refine (hle.and hne).imp ?_
    intro a b hab
    simp only [decide_eq_true_eq] at hab
    omega
  · exact List.pairwise_reverse.mpr h

theorem dictGet_dictAppend_self (d : List (String × List IEntry)) (k : String) (v : IEntry) :
    dictGet (dictAppend d k v) k = some (entriesFor d k ++ [v]) := by
  induction d with
  | nil => simp [dictAppend, dictGet, entriesFor]
  | cons p rest ih =>
    obtain ⟨k0, l⟩ := p
    by_cases h : k0 = k
    · simp [dictAppend, dictGet, entriesFor, h]
    · simp [dictAppend, dictGet, entriesFor, h] at ih ⊢
      exact ih

theorem dictGet_dictAppend_other (d : List (String × List IEntry)) (k k' : String)
    (v : IEntry) (h : k' ≠ k) :
    dictGet (dictAppend d k v) k' = dictGet d k' := by
  induction d with
  | nil => simp [dictAppend, dictGet, Ne.symm h]
  | cons p rest ih =>
    obtain ⟨k0, l⟩ := p
    by_cases hk : k0 = k
    · subst hk
      simp [dictAppend, dictGet, Ne.symm h]
    · by_cases hk' : k0 = k'
      · simp [dictAppend, dictGet, hk, hk', h]
      · simp [dictAppend, dictGet, hk, hk', ih]

theorem entriesFor_foldl_dictAppend (ps : List (String × IEntry)) :
    ∀ (d : List (String × List IEntry)) (k : String),
    entriesFor (ps.foldl (fun d p => dictAppend d p.1 p.2) d) k =
      entriesFor d k ++ (ps.filter (fun p => p.1 == k)).map Prod.snd := by
  induction ps with
  | nil => intro d k; simp
  | cons p rest ih =>
    intro d k
    obtain ⟨k0, v⟩ := p
    show entriesFor (rest.foldl (fun d p => dictAppend d p.1 p.2) (dictAppend d k0 v)) k = _
    rw [ih]
    by_cases h : k0 = k
    · subst h
      rw [show entriesFor (dictAppend d k0 v) k0 = entriesFor d k0 ++ [v] by
        simp [entriesFor, dictGet_dictAppend_self]]
      simp
    · rw [show entriesFor (dictAppend d k0 v) k = entriesFor d k by
        simp [entriesFor, dictGet_dictAppend_other d k0 k v (Ne.symm h)]]
      have hbeq : (k0 == k) = false := by
        simp [h]
      simp [List.filter_cons, hbeq]

theorem entriesFor_groupPairs (ps : List (String × IEntry)) (k : String) :
    entriesFor (groupPairs ps) k = (ps.filter (fun p => p.1 == k)).map Prod.snd := by
  rw [groupPairs, entriesFor_foldl_dictAppend]
  simp [entriesFor, dictGet]

theorem mem_entriesFor_groupPairs (ps : List (String × IEntry)) (k : String) (e : IEntry)
    (h : (k, e) ∈ ps) : e ∈ entriesFor (groupPairs ps) k := by
  rw [entriesFor_groupPairs]
  refine List.mem_map.mpr ⟨(k, e), ?_, rfl⟩
  refine List.mem_filter.mpr ⟨h, ?_⟩
  simp

theorem head?_applyAuthOp (users : List Int) (op : AuthOp) (a : Int)
    (h : users.head? = some a) : (applyAuthOp users op).head? = some a := by
  match users, h with
  | u :: t, h =>
    have ha : u = a := by
      simpa using h
    subst ha
    cases op with
    | add v =>
      show (add_authorized_user (u :: t) v).1.head? = some u
      unfold add_authorized_user
      by_cases hv : v ∈ u :: t
      · rw [if_pos hv]
        rfl
      · rw [if_neg hv]
        rfl
    | remove v =>
      show (remove_authorized_user (u :: t) v).1.head? = some u
      unfold remove_authorized_user
      split
      · next hcond =>
        obtain ⟨hmem, hnadmin⟩ := hcond
        have hv : v ≠ u := by
          intro hvu
          exact hnadmin (by simp [is_main_admin, hvu])
        have : (u :: t).erase v = u :: t.erase v := by
          rw [List.erase_cons_tail]
          simpa using Ne.symm hv
        simp [this]
      · rfl

theorem head?_applyAuthOps (ops : List AuthOp) : ∀ (users : List Int) (a : Int),
    users.head? = some a → (applyAuthOps users ops).head? = some a := by
  induction ops with
  | nil => intro users a h; exact h
  | cons op rest ih =>
    intro users a h
    exact ih (applyAuthOp users op) a (head?_applyAuthOp users op a h)

theorem remove_head_fails (users : List Int) (a : Int) (h : users.head? = some a) :
    remove_authorized_user users a = (users, false) := by
  match users, h with
  | u :: t, h =>
    have ha : u = a := by
      simpa using h
    subst ha
    unfold remove_authorized_user
    rw [if_neg]
    intro hcond
    exact hcond.2 (by simp [is_main_admin])

theorem digitChar_toNat (k : Nat) : (digitChar k).toNat = 48 + k % 10 := by
  have hb : ∀ r < 10, (Char.ofNat (48 + r)).toNat = 48 + r := by decide
  exact hb (k % 10) (Nat.mod_lt _ (by omega))

theorem isDigitCh_digitChar (k : Nat) : isDigitCh (digitChar k) = true := by
  have h := digitChar_toNat k
  have hlt : k % 10 < 10 := Nat.mod_lt _ (by omega)
  simp [isDigitCh, h]
  omega

theorem digitVal_digitChar (k : Nat) : digitVal (digitChar k) = k % 10 := by
  simp [digitVal, digitChar_toNat]

theorem parse2_pad2 (n : Nat) (h : n < 100) :
    parse2 (digitChar (n / 10)) (digitChar n) = some n := by
  unfold parse2
  rw [if_pos (by simp [isDigitCh_digitChar])]
  rw [digitVal_digitChar, digitVal_digitChar]
  congr 1
  omega

theorem parse4_pad4 (n : Nat) (h : n ≤ 9999) :
    parse4 (digitChar (n / 1000)) (digitChar (n / 100)) (digitChar (n / 10)) (digitChar n) =
      some n := by
  unfold parse4
  rw [if_pos (by simp [isDigitCh_digitChar])]
  rw [digitVal_digitChar, digitVal_digitChar, digitVal_digitChar, digitVal_digitChar]
  congr 1
  omega

theorem str_to_ts_strptime_ts_to_str (d : PyDateTime) (hv : d.valid)
    (hm : d.microsecond = 0) (hy : 1000 ≤ d.year) :
    str_to_ts_strptime (ts_to_str d) = some d := by
  obtain ⟨y, mo, da, hh, mi, se, micro⟩ := d
  simp only [PyDateTime.valid] at hv
  simp only at hm hy
  subst hm
  obtain ⟨hy1, hy2, hmo1, hmo2, hda1, hda2, hhh, hmi, hse, -⟩ := hv
  have hmo' : mo < 100 := by omega
  have hdm : ∀ (y' m' : Nat), daysInMonth y' m' ≤ 31 := by
    intro y' m'
    unfold daysInMonth
    split <;> first | omega | (split <;> omega)
  have hda' : da < 100 := by
    have := hdm y mo
    omega
  have hyc : yearChars y = pad4 y := by
    unfold yearChars
    rw [if_pos hy]
  show str_to_ts_strptime (String.mk (yearChars y ++ '-' :: pad2 mo ++ '-' :: pad2 da ++
    ' ' :: pad2 hh ++ ':' :: pad2 mi ++ ':' :: pad2 se)) = _
  rw [hyc]
  simp only [pad4, pad2, List.cons_append, List.nil_append]
  rw [show str_to_ts_strptime = fun s => str_to_ts_strptime s from rfl]
  simp only [str_to_ts_strptime, String.toList]
  rw [if_pos (by simp)]
  rw [parse4_pad4 y hy2, parse2_pad2 mo hmo', parse2_pad2 da hda',
    parse2_pad2 hh (by omega), parse2_pad2 mi (by omega), parse2_pad2 se (by omega)]
  dsimp only
  rw [if_pos]
  exact ⟨hy1, hy2, hmo1, hmo2, hda1, hda2, hhh, hmi, hse, by norm_num⟩

/-- C3: the claim states that constructing the bot client, dispatcher, message
store and analyzer used by the webhook entry point performs no network
round-trip.  The code under src/ violates this: `CommunicationAnalyzer.__init__`
(src/ai_analyzer.py lines 25-49) performs the diagnostic `genai.list_models()`
network call, and src/main.py constructs the analyzer at module level
(line 34), which the webhook POST handler triggers via `from main import
handle_update`.  The spec itself marks this eager diagnostic probe as a
superseded startup-reliability bug, so the code, not the claim, is wrong.
This theorem evaluates the modelled construction-effect trace at that failing
input: it contains a network round-trip. -/
theorem construction_performs_network_probe :
    mainModuleConstructionEffects.any isNetworkRoundTrip = true ∧
      InitEffect.networkListModels ∈ communicationAnalyzerInitEffects := by
  decide

/-- C4: for every initial authorized-user list with main administrator `a` in
position 0 and every sequence of add/remove operations, the list's head is
still `a`, applying `remove_authorized_user` to that position-0 entry leaves
the list unchanged and reports failure, and the main administrator is always
a member of the list. -/
theorem main_admin_cannot_be_removed (a : Int) (rest : List Int) (ops : List AuthOp) :
    (applyAuthOps (a :: rest) ops).head? = some a ∧
      remove_authorized_user (applyAuthOps (a :: rest) ops) a =
        (applyAuthOps (a :: rest) ops, false) ∧
      a ∈ applyAuthOps (a :: rest) ops := by
  have hh := head?_applyAuthOps ops (a :: rest) a rfl
  exact ⟨hh, remove_head_fails _ a hh,
    List.mem_of_mem_head? (Option.mem_def.mpr hh)⟩

/-- C10: for a chat with no entry in the in-memory working-set map,
`get_user_interactions` returns the empty dictionary for every user and
limit, and its result never depends on durable storage (replacing the `db`
rows changes nothing). -/
theorem interactions_empty_without_working_set (mc : MessageCache) (c user : Int)
    (limit : Option Nat) (db' : List Message) (h : lookupChat mc.chats c = none) :
    mc.get_user_interactions c user limit = [] ∧
      ({ mc with db := db' } : MessageCache).get_user_interactions c user limit =
        mc.get_user_interactions c user limit := by
  refine ⟨?_, rfl⟩
  simp [MessageCache.get_user_interactions, h]

/-- Witness for C10 at a concrete cache whose durable log holds a message for
chat 1 while the working-set map is empty. -/
theorem interactions_empty_without_working_set_witness :
    (MessageCache.get_user_interactions ⟨1000, 50, [], [⟨1, 2, "u", "x", 5⟩]⟩ 1 2 none
        = []) ∧
      (MessageCache.get_user_interactions ⟨1000, 50, [], [⟨9, 9, "w", "y", 7⟩]⟩ 1 2 none =
        MessageCache.get_user_interactions ⟨1000, 50, [], [⟨1, 2, "u", "x", 5⟩]⟩ 1 2 none) :=
  interactions_empty_without_working_set ⟨1000, 50, [], [⟨1, 2, "u", "x", 5⟩]⟩ 1 2 none
    [⟨9, 9, "w", "y", 7⟩] rfl

/-- C7 (amended): the webhook HTTP contract.  A GET returns 200 with a
non-empty liveness body; a POST with an empty body returns 400; a POST
whose body is not valid JSON returns 400; a POST carrying one valid update
returns 200 once dispatch completes; a dispatch failure yields 500 for
every exception other than `json.JSONDecodeError`, while a dispatch-raised
`json.JSONDecodeError` is caught by the enclosing malformed-JSON handler
and yields 400.  The last carve-out is forced by the counterexample. -/
theorem webhook_http_contract (cl : Nat) (parsed0 : Option UpdateData)
    (d0 : UpdateData → Except PyExc Unit) (u : UpdateData)
    (dOk dErr dJson : UpdateData → Except PyExc Unit) (m : String)
    (hcl : cl ≠ 0) (hOk : dOk u = Except.ok ())
    (hErr : dErr u = Except.error (PyExc.other m))
    (hJson : dJson u = Except.error PyExc.jsonDecodeError) :
    webhook_do_GET.1 = 200 ∧ webhook_do_GET.2 ≠ "" ∧
      webhook_do_POST 0 parsed0 d0 = (400, "Empty body") ∧
      webhook_do_POST cl none d0 = (400, "Invalid JSON") ∧
      webhook_do_POST cl (some u) dOk = (200, "OK") ∧
      webhook_do_POST cl (some u) dErr = (500, "Internal error: " ++ m) ∧
      webhook_do_POST cl (some u) dJson = (400, "Invalid JSON") := by
  refine ⟨rfl, by decide, rfl, ?_, ?_, ?_, ?_⟩
  · simp [webhook_do_POST, hcl]
  · simp [webhook_do_POST, hcl, hOk]
  · simp [webhook_do_POST, hcl, hErr]
  · simp [webhook_do_POST, hcl, hJson]

/-- C7 counterexample: a dispatch failure of type `json.JSONDecodeError` is
caught by the `except json.JSONDecodeError` clause that encloses the
dispatch call (src/api/webhook.py lines 43-50), so it yields status 400,
not the status 500 the claim asserts for any dispatch failure. -/
theorem webhook_dispatch_json_error_counterexample :
    webhook_do_POST 27 (some ⟨"update"⟩) (fun _ => Except.error PyExc.jsonDecodeError) =
        (400, "Invalid JSON") ∧
      (webhook_do_POST 27 (some ⟨"update"⟩)
          (fun _ => Except.error PyExc.jsonDecodeError)).1 ≠ 500 := by
  exact ⟨rfl, by decide⟩

/-- Witness for C7 at a concrete request set. -/
theorem webhook_http_contract_witness :
    webhook_do_GET.1 = 200 ∧ webhook_do_GET.2 ≠ "" ∧
      webhook_do_POST 0 none (fun _ => Except.ok ()) = (400, "Empty body") ∧
      webhook_do_POST 27 none (fun _ => Except.ok ()) = (400, "Invalid JSON") ∧
      webhook_do_POST 27 (some ⟨"update"⟩) (fun _ => Except.ok ()) = (200, "OK") ∧
      webhook_do_POST 27 (some ⟨"update"⟩) (fun _ => Except.error (PyExc.other "boom")) =
        (500, "Internal error: " ++ "boom") ∧
      webhook_do_POST 27 (some ⟨"update"⟩)
          (fun _ => Except.error PyExc.jsonDecodeError) = (400, "Invalid JSON") :=
  webhook_http_contract 27 none (fun _ => Except.ok ()) ⟨"update"⟩
    (fun _ => Except.ok ()) (fun _ => Except.error (PyExc.other "boom"))
    (fun _ => Except.error PyExc.jsonDecodeError) "boom"
    (by decide) rfl rfl rfl

/-- C6 (amended): if the LLM call returns nonempty text that is not valid JSON
while structured output was requested, `analyze_messages` and
`analyze_user_communication` both return the fixed malformed-response
diagnostic and raise no exception to their caller (an `Except.ok` result is
a normal return).  The nonemptiness qualifier is forced by the dedicated
empty-response branch exhibited in the counterexample. -/
theorem malformed_response_fixed_diagnostic (msgs umsgs : List Message)
    (uname resp resp2 now now2 : String)
    (h1 : msgs ≠ []) (h2 : resp ≠ "") (h3 : umsgs ≠ []) (h4 : resp2 ≠ "") :
    analyze_messages msgs resp none now = Except.ok jsonErrorStr ∧
      analyze_user_communication umsgs uname resp2 none now2 = Except.ok jsonErrorStr := by
  constructor
  · simp [analyze_messages, analyze_messages_try, h1, h2]
  · simp [analyze_user_communication, analyze_user_communication_try, h3, h4]

/-- C6 counterexample: the empty string is not valid JSON, yet on an empty LLM
response the operation returns the distinct empty-response diagnostic, not
the fixed malformed-response diagnostic the claim names. -/
theorem malformed_response_empty_counterexample :
    analyze_messages [⟨1, 1, "u", "hi", 0⟩] "" none "2024-01-01 00:00" =
        Except.ok emptyResponseStr ∧
      emptyResponseStr ≠ jsonErrorStr := by
  exact ⟨rfl, by decide⟩

/-- Witness for C6 at concrete nonempty inputs. -/
theorem malformed_response_fixed_diagnostic_witness :
    analyze_messages [⟨1, 1, "u", "hi", 0⟩] "not json" none "t" = Except.ok jsonErrorStr ∧
      analyze_user_communication [⟨1, 1, "u", "hi", 0⟩] "u" "also not json" none "t" =
        Except.ok jsonErrorStr :=
  malformed_response_fixed_diagnostic [⟨1, 1, "u", "hi", 0⟩] [⟨1, 1, "u", "hi", 0⟩] "u"
    "not json" "also not json" "t" "t" (by decide) (by decide) (by decide) (by decide)

/-- C1: for every chat and every `k ≥ 1`, if at least `k` messages with
strictly increasing timestamps have been appended for that chat and the
durable store is readable (`dbOk = true`), then `get_last_n_messages`
returns exactly the `k` most recently appended messages of the chat (the
suffix of its appended rows), of length `k`, in ascending timestamp order. -/
theorem round_trip_ordering (maxsz cap k : Nat) (msgs : List Message) (c : Int)
    (_hk : 1 ≤ k)
    (hasc : (msgs.filter (fun x => x.chat_id == c)).Pairwise
      (fun a b => a.timestamp < b.timestamp))
    (hle : k ≤ (msgs.filter (fun x => x.chat_id == c)).length) :
    ((MessageCache.empty maxsz cap).addAll msgs).get_last_n_messages true c k =
        lastN k (msgs.filter (fun x => x.chat_id == c)) ∧
      (lastN k (msgs.filter (fun x => x.chat_id == c))).length = k ∧
      (lastN k (msgs.filter (fun x => x.chat_id == c))).Pairwise
        (fun a b => a.timestamp < b.timestamp) := by
  refine ⟨?_, ?_, ?_⟩
  · simp only [MessageCache.get_last_n_messages, if_pos rfl]
    rw [addAll_db]
    simp only [MessageCache.empty, List.nil_append]
    unfold sqlSelectLastN
    rw [mergeSort_desc_of_strictAsc _ hasc]
    rw [List.take_reverse, List.reverse_reverse]
    rfl
  · rw [lastN_length]
    omega
  · unfold lastN
    exact List.Pairwise.sublist (List.drop_sublist _ _) hasc

/-- Witness for C1 at a concrete four-message log (three rows for chat 1, one
for chat 2) with `k = 2`. -/
theorem round_trip_ordering_witness :
    ((MessageCache.empty 1000 50).addAll
          [⟨1, 1, "a", "x", 0⟩, ⟨2, 5, "b", "y", 1⟩, ⟨1, 1, "a", "z", 2⟩,
            ⟨1, 3, "c", "w", 3⟩]).get_last_n_messages true 1 2 =
        lastN 2 ([⟨1, 1, "a", "x", 0⟩, ⟨2, 5, "b", "y", 1⟩, ⟨1, 1, "a", "z", 2⟩,
          ⟨1, 3, "c", "w", 3⟩].filter (fun x => x.chat_id == 1)) ∧
      (lastN 2 ([⟨1, 1, "a", "x", 0⟩, ⟨2, 5, "b", "y", 1⟩, ⟨1, 1, "a", "z", 2⟩,
        ⟨1, 3, "c", "w", 3⟩].filter (fun x => x.chat_id == 1))).length = 2 ∧
      (lastN 2 ([⟨1, 1, "a", "x", 0⟩, ⟨2, 5, "b", "y", 1⟩, ⟨1, 1, "a", "z", 2⟩,
        ⟨1, 3, "c", "w", 3⟩].filter (fun x => x.chat_id == 1))).Pairwise
        (fun a b => a.timestamp < b.timestamp) :=
  round_trip_ordering 1000 50 2
    [⟨1, 1, "a", "x", 0⟩, ⟨2, 5, "b", "y", 1⟩, ⟨1, 1, "a", "z", 2⟩, ⟨1, 3, "c", "w", 3⟩]
    1 (by decide) (by decide) (by decide)

/-- C2: appending more messages to one chat than `memory_cache_size` leaves
that chat's working set at exactly `memory_cache_size` entries, namely the
most recently appended ones, while durable storage retains all of them; and
after any sequence of appends, no chat's working set exceeds the cap. -/
theorem memory_cap_eviction (maxsz cap : Nat) (c : Int) (msgs pre : List Message)
    (ch : Int) (hchat : ∀ x ∈ msgs, x.chat_id = c) (hover : cap < msgs.length) :
    getChat ((MessageCache.empty maxsz cap).addAll msgs).chats c = lastN cap msgs ∧
      (getChat ((MessageCache.empty maxsz cap).addAll msgs).chats c).length = cap ∧
      ((MessageCache.empty maxsz cap).addAll msgs).db = msgs ∧
      (getChat ((MessageCache.empty maxsz cap).addAll pre).chats ch).length ≤ cap := by
  have hws := addAll_getChat c msgs (MessageCache.empty maxsz cap) hchat
    (by simp [MessageCache.empty, getChat, lookupChat])
  have hempty : getChat (MessageCache.empty maxsz cap).chats c = [] := rfl
  have hcap : (MessageCache.empty maxsz cap).memory_cache_size = cap := rfl
  rw [hempty, List.nil_append, hcap] at hws
  refine ⟨hws, ?_, ?_, ?_⟩
  · rw [hws, lastN_length]
    omega
  · rw [addAll_db]
    rfl
  · exact addAll_getChat_le pre (MessageCache.empty maxsz cap)
      (fun ch' => by simp [MessageCache.empty, getChat, lookupChat]) ch

/-- Witness for C2 at a concrete three-message append with cap 2. -/
theorem memory_cap_eviction_witness :
    getChat ((MessageCache.empty 1000 2).addAll
          [⟨1, 1, "a", "x", 0⟩, ⟨1, 1, "a", "y", 1⟩, ⟨1, 2, "b", "z", 2⟩]).chats 1 =
        lastN 2 [⟨1, 1, "a", "x", 0⟩, ⟨1, 1, "a", "y", 1⟩, ⟨1, 2, "b", "z", 2⟩] ∧
      (getChat ((MessageCache.empty 1000 2).addAll
          [⟨1, 1, "a", "x", 0⟩, ⟨1, 1, "a", "y", 1⟩, ⟨1, 2, "b", "z", 2⟩]).chats 1).length
        = 2 ∧
      ((MessageCache.empty 1000 2).addAll
          [⟨1, 1, "a", "x", 0⟩, ⟨1, 1, "a", "y", 1⟩, ⟨1, 2, "b", "z", 2⟩]).db =
        [⟨1, 1, "a", "x", 0⟩, ⟨1, 1, "a", "y", 1⟩, ⟨1, 2, "b", "z", 2⟩] ∧
      (getChat ((MessageCache.empty 1000 2).addAll
          [⟨1, 1, "a", "x", 0⟩, ⟨1, 1, "a", "y", 1⟩]).chats 1).length ≤ 2 :=
  memory_cap_eviction 1000 2 1
    [⟨1, 1, "a", "x", 0⟩, ⟨1, 1, "a", "y", 1⟩, ⟨1, 2, "b", "z", 2⟩]
    [⟨1, 1, "a", "x", 0⟩, ⟨1, 1, "a", "y", 1⟩] 1 (by decide) (by decide)

/-- C8 (amended): the trim pass inside `add_message` fires exactly when the
working-set length after the append is a multiple of 20 — in particular, on
every 20th message only while the chat's working set is still below the
memory cap — and the pass never changes the state (the deque bound already
enforces the cap, so it is always a harmless no-op, at the cap or not). -/
theorem trim_pass_trigger (mc : MessageCache) (dbOk : Bool) (chat_id user_id : Int)
    (username text : String) (ts maxsz cap : Nat) (c : Int) (msgs : List Message)
    (uid : Int) (un tx : String) (ts2 : Nat)
    (hchat : ∀ x ∈ msgs, x.chat_id = c) (hbelow : msgs.length + 1 ≤ cap) :
    mc.add_message dbOk chat_id user_id username text ts =
        mc.add_message_untrimmed dbOk chat_id user_id username text ts ∧
      (((MessageCache.empty maxsz cap).addAll msgs).trimTriggered c ⟨c, uid, un, tx, ts2⟩ =
          true ↔ (msgs.length + 1) % 20 = 0) := by
  refine ⟨add_message_eq_untrimmed mc dbOk chat_id user_id username text ts, ?_⟩
  have hws := addAll_getChat c msgs (MessageCache.empty maxsz cap) hchat
    (by simp [MessageCache.empty, getChat, lookupChat])
  have hempty : getChat (MessageCache.empty maxsz cap).chats c = [] := rfl
  rw [hempty, List.nil_append] at hws
  unfold MessageCache.trimTriggered
  rw [addAll_cap, hws]
  show ((dequeAppend cap (lastN cap msgs) ⟨c, uid, un, tx, ts2⟩).length % 20 == 0) = true ↔ _
  have hlen : (dequeAppend cap (lastN cap msgs) ⟨c, uid, un, tx, ts2⟩).length =
      msgs.length + 1 := by
    have h1 := lastN_length cap msgs
    simp only [dequeAppend, List.length_drop, List.length_append, List.length_cons,
      List.length_nil]
    omega
  rw [hlen]
  simp

/-- Witness for C8 at a concrete scenario: cap 30, 19 messages already in the
chat, so the 20th append fires the (no-op) trim pass. -/
theorem trim_pass_trigger_witness :
    (MessageCache.empty 10 5).add_message true 1 1 "u" "t" 0 =
        (MessageCache.empty 10 5).add_message_untrimmed true 1 1 "u" "t" 0 ∧
      (((MessageCache.empty 1000 30).addAll
            ((List.range 19).map (fun i => ⟨1, 7, "u", "t", i⟩))).trimTriggered 1
          ⟨1, 7, "u", "t", 19⟩ = true ↔
        (((List.range 19).map (fun i => (⟨1, 7, "u", "t", i⟩ : Message))).length + 1) % 20
          = 0) :=
  trim_pass_trigger (MessageCache.empty 10 5) true 1 1 "u" "t" 0 1000 30 1
    ((List.range 19).map (fun i => ⟨1, 7, "u", "t", i⟩)) 7 "u" "t" 19
    (by decide) (by decide)

set_option maxRecDepth 4000

/-- C8 counterexample: with the default memory cap 50, the 60th message
appended to a chat is an "every 20th message" instance (60 is a multiple of
20), yet the trim-trigger condition evaluated by `add_message` on that
append is false: the working set is pinned at 50 entries and 50 % 20 ≠ 0, so
no eviction-trim pass is triggered. -/
theorem trim_pass_counterexample :
    ((MessageCache.empty 1000 50).addAll
          ((List.range 59).map (fun i => ⟨1, 7, "u", "t", i⟩))).trimTriggered 1
        ⟨1, 7, "u", "t", 59⟩ = false := by
  decide

/-- C5: over a chat's working set, `get_user_interactions` records every
message authored by the target user under the key `"self"`; for each such
anchor at index `i` and each context index `j` in the window
`[max(0, i-3), min(len, i+4))` whose message is authored by someone else, an
interaction record appears under that partner's display name, and its
`user_message` field is the anchor exactly when `j > i` (and absent
otherwise); moreover, in the concrete 5-message scenario with the target
speaking at positions 1 and 3 interleaved with three distinct other authors,
the `"self"` entry holds exactly the target's two messages and all three
other authors appear as partner keys. -/
theorem interaction_windowing (mc : MessageCache) (c : Int) (msgs : List Message)
    (user : Int) (i j : Nat) (hws : lookupChat mc.chats c = some msgs)
    (hi : i < msgs.length) (hj : j < msgs.length)
    (hanchor : (msgs[i]).user_id = user) (hctx : (msgs[j]).user_id ≠ user)
    (hlo : i - 3 ≤ j) (hhi : j < i + 4) :
    IEntry.selfMsg msgs[i] ∈ entriesFor (mc.get_user_interactions c user none) "self" ∧
      IEntry.inter (if i < j then some msgs[i] else none) msgs[j] (msgs[j]).timestamp ∈
        entriesFor (mc.get_user_interactions c user none) ((msgs[j]).username) ∧
      (entriesFor (userInteractions
            [⟨0, 1, "alice", "m0", 0⟩, ⟨0, 42, "tgt", "m1", 1⟩, ⟨0, 2, "bob", "m2", 2⟩,
              ⟨0, 42, "tgt", "m3", 3⟩, ⟨0, 3, "carol", "m4", 4⟩] 42 none) "self" =
          [IEntry.selfMsg ⟨0, 42, "tgt", "m1", 1⟩, IEntry.selfMsg ⟨0, 42, "tgt", "m3", 3⟩] ∧
        (dictGet (userInteractions
            [⟨0, 1, "alice", "m0", 0⟩, ⟨0, 42, "tgt", "m1", 1⟩, ⟨0, 2, "bob", "m2", 2⟩,
              ⟨0, 42, "tgt", "m3", 3⟩, ⟨0, 3, "carol", "m4", 4⟩] 42 none) "alice").isSome ∧
        (dictGet (userInteractions
            [⟨0, 1, "alice", "m0", 0⟩, ⟨0, 42, "tgt", "m1", 1⟩, ⟨0, 2, "bob", "m2", 2⟩,
              ⟨0, 42, "tgt", "m3", 3⟩, ⟨0, 3, "carol", "m4", 4⟩] 42 none) "bob").isSome ∧
        (dictGet (userInteractions
            [⟨0, 1, "alice", "m0", 0⟩, ⟨0, 42, "tgt", "m1", 1⟩, ⟨0, 2, "bob", "m2", 2⟩,
              ⟨0, 42, "tgt", "m3", 3⟩, ⟨0, 3, "carol", "m4", 4⟩] 42 none) "carol").isSome) := by
  have hred : mc.get_user_interactions c user none = groupPairs (interEmits msgs user) := by
    simp [MessageCache.get_user_interactions, hws, userInteractions, applyLimit]
  have hmemi : (i, msgs[i]) ∈ msgs.enum :=
    List.mem_enum_iff_getElem?.mpr (by simp [List.getElem?_eq_getElem hi])
  have hmemj : (j, msgs[j]) ∈ msgs.enum :=
    List.mem_enum_iff_getElem?.mpr (by simp [List.getElem?_eq_getElem hj])
  refine ⟨?_, ?_, by decide⟩
  · rw [hred]
    apply mem_entriesFor_groupPairs
    unfold interEmits
    apply List.mem_flatMap.mpr
    refine ⟨(i, msgs[i]), hmemi, ?_⟩
    simp [hanchor]
  · rw [hred]
    apply mem_entriesFor_groupPairs
    unfold interEmits
    apply List.mem_flatMap.mpr
    refine ⟨(i, msgs[i]), hmemi, ?_⟩
    have hcond : ((msgs[i]).user_id == user) = true := by simp [hanchor]
    rw [if_pos hcond]
    apply List.mem_cons_of_mem
    unfold interWindow
    apply List.mem_filterMap.mpr
    refine ⟨(j, msgs[j]), ?_, ?_⟩
    · exact List.mem_filter.mpr ⟨hmemj, by simp [hlo, hhi]⟩
    · simp [hctx]

/-- Witness for C5: the membership statements instantiated on the concrete
5-message scenario at anchor index 1 and context index 2. -/
theorem interaction_windowing_witness :
    IEntry.selfMsg ([⟨0, 1, "alice", "m0", 0⟩, ⟨0, 42, "tgt", "m1", 1⟩,
          ⟨0, 2, "bob", "m2", 2⟩, ⟨0, 42, "tgt", "m3", 3⟩,
          ⟨0, 3, "carol", "m4", 4⟩] : List Message)[1] ∈
        entriesFor (MessageCache.get_user_interactions
          ⟨1000, 50,
            [(0, [⟨0, 1, "alice", "m0", 0⟩, ⟨0, 42, "tgt", "m1", 1⟩, ⟨0, 2, "bob", "m2", 2⟩,
              ⟨0, 42, "tgt", "m3", 3⟩, ⟨0, 3, "carol", "m4", 4⟩])], []⟩ 0 42 none) "self" ∧
      IEntry.inter
          (if 1 < 2 then some ([⟨0, 1, "alice", "m0", 0⟩, ⟨0, 42, "tgt", "m1", 1⟩,
            ⟨0, 2, "bob", "m2", 2⟩, ⟨0, 42, "tgt", "m3", 3⟩,
            ⟨0, 3, "carol", "m4", 4⟩] : List Message)[1] else none)
          ([⟨0, 1, "alice", "m0", 0⟩, ⟨0, 42, "tgt", "m1", 1⟩, ⟨0, 2, "bob", "m2", 2⟩,
            ⟨0, 42, "tgt", "m3", 3⟩, ⟨0, 3, "carol", "m4", 4⟩] : List Message)[2]
          (([⟨0, 1, "alice", "m0", 0⟩, ⟨0, 42, "tgt", "m1", 1⟩, ⟨0, 2, "bob", "m2", 2⟩,
            ⟨0, 42, "tgt", "m3", 3⟩, ⟨0, 3, "carol", "m4", 4⟩] : List Message)[2]).timestamp ∈
        entriesFor (MessageCache.get_user_interactions
          ⟨1000, 50,
            [(0, [⟨0, 1, "alice", "m0", 0⟩, ⟨0, 42, "tgt", "m1", 1⟩, ⟨0, 2, "bob", "m2", 2⟩,
              ⟨0, 42, "tgt", "m3", 3⟩, ⟨0, 3, "carol", "m4", 4⟩])], []⟩ 0 42 none)
          ((([⟨0, 1, "alice", "m0", 0⟩, ⟨0, 42, "tgt", "m1", 1⟩, ⟨0, 2, "bob", "m2", 2⟩,
            ⟨0, 42, "tgt", "m3", 3⟩,
            ⟨0, 3, "carol", "m4", 4⟩] : List Message)[2]).username) ∧
      (entriesFor (userInteractions
            [⟨0, 1, "alice", "m0", 0⟩, ⟨0, 42, "tgt", "m1", 1⟩, ⟨0, 2, "bob", "m2", 2⟩,
              ⟨0, 42, "tgt", "m3", 3⟩, ⟨0, 3, "carol", "m4", 4⟩] 42 none) "self" =
          [IEntry.selfMsg ⟨0, 42, "tgt", "m1", 1⟩, IEntry.selfMsg ⟨0, 42, "tgt", "m3", 3⟩] ∧
        (dictGet (userInteractions
            [⟨0, 1, "alice", "m0", 0⟩, ⟨0, 42, "tgt", "m1", 1⟩, ⟨0, 2, "bob", "m2", 2⟩,
              ⟨0, 42, "tgt", "m3", 3⟩, ⟨0, 3, "carol", "m4", 4⟩] 42 none) "alice").isSome ∧
        (dictGet (userInteractions
            [⟨0, 1, "alice", "m0", 0⟩, ⟨0, 42, "tgt", "m1", 1⟩, ⟨0, 2, "bob", "m2", 2⟩,
              ⟨0, 42, "tgt", "m3", 3⟩, ⟨0, 3, "carol", "m4", 4⟩] 42 none) "bob").isSome ∧
        (dictGet (userInteractions
            [⟨0, 1, "alice", "m0", 0⟩, ⟨0, 42, "tgt", "m1", 1⟩, ⟨0, 2, "bob", "m2", 2⟩,
              ⟨0, 42, "tgt", "m3", 3⟩, ⟨0, 3, "carol", "m4", 4⟩] 42 none) "carol").isSome) :=
  interaction_windowing
    ⟨1000, 50,
      [(0, [⟨0, 1, "alice", "m0", 0⟩, ⟨0, 42, "tgt", "m1", 1⟩, ⟨0, 2, "bob", "m2", 2⟩,
        ⟨0, 42, "tgt", "m3", 3⟩, ⟨0, 3, "carol", "m4", 4⟩])], []⟩ 0
    [⟨0, 1, "alice", "m0", 0⟩, ⟨0, 42, "tgt", "m1", 1⟩, ⟨0, 2, "bob", "m2", 2⟩,
      ⟨0, 42, "tgt", "m3", 3⟩, ⟨0, 3, "carol", "m4", 4⟩] 42 1 2 (by decide)
    (by decide) (by decide) (by decide) (by decide) (by decide) (by decide)

/-- C9 (amended): serializing a whole-second datetime whose year has four
digits (year ≥ 1000) with `_ts_to_str` and parsing the result with
`_str_to_ts` returns the original datetime for any isoformat fallback, and
`_str_to_ts` is total — when both the fixed-format parse and the isoformat
fallback fail, it falls back to the supplied current time instead of
raising.  The year bound is forced by the counterexample: the platform
strftime leaves years below 1000 unpadded, which neither parse stage
accepts. -/
theorem timestamp_round_trip (d : PyDateTime) (iso iso2 : String → Option PyDateTime)
    (now now2 : PyDateTime) (s : String) (hv : d.valid) (hm : d.microsecond = 0)
    (hy : 1000 ≤ d.year) (h1 : str_to_ts_strptime s = none) (h2 : iso2 s = none) :
    str_to_ts iso now (ts_to_str d) = d ∧ str_to_ts iso2 now2 s = now2 := by
  constructor
  · unfold str_to_ts
    rw [str_to_ts_strptime_ts_to_str d hv hm hy]
  · unfold str_to_ts
    rw [h1, h2]

/-- C9 counterexample: the valid whole-second datetime with year 900 is
serialized by the platform strftime with an unpadded three-digit year; the
fixed-format strptime and fromisoformat both require a four-digit year and
fail on it, so `_str_to_ts` falls back to the supplied current time and the
round trip fails. -/
theorem timestamp_round_trip_counterexample :
    PyDateTime.valid ⟨900, 1, 2, 3, 4, 5, 0⟩ ∧
      ts_to_str ⟨900, 1, 2, 3, 4, 5, 0⟩ = "900-01-02 03:04:05" ∧
      str_to_ts fromisoformatModel ⟨2020, 1, 1, 0, 0, 0, 0⟩
          (ts_to_str ⟨900, 1, 2, 3, 4, 5, 0⟩) = ⟨2020, 1, 1, 0, 0, 0, 0⟩ ∧
      (⟨2020, 1, 1, 0, 0, 0, 0⟩ : PyDateTime) ≠ ⟨900, 1, 2, 3, 4, 5, 0⟩ := by
  exact ⟨by decide, by decide, by decide, by decide⟩

/-- Witness for C9 at a concrete four-digit-year datetime and a concrete
unparsable string. -/
theorem timestamp_round_trip_witness :
    str_to_ts (fun _ => none) ⟨2020, 1, 1, 0, 0, 0, 0⟩
        (ts_to_str ⟨2024, 5, 17, 12, 30, 45, 0⟩) = ⟨2024, 5, 17, 12, 30, 45, 0⟩ ∧
      str_to_ts (fun _ => none) ⟨2020, 1, 1, 0, 0, 0, 0⟩ "garbage" =
        ⟨2020, 1, 1, 0, 0, 0, 0⟩ :=
  timestamp_round_trip ⟨2024, 5, 17, 12, 30, 45, 0⟩ (fun _ => none) (fun _ => none)
    ⟨2020, 1, 1, 0, 0, 0, 0⟩ ⟨2020, 1, 1, 0, 0, 0, 0⟩ "garbage" (by decide) rfl
    (by decide) (by decide) rfl

end TgBot
